import Mathlib

/-! Shallow embedding of the per-frame synchronization and update protocol of
src/host_code/assignment1.cpp (ARTR 2024 Assignment 1 host code), together with
theorems about its light-range block, its camera handling, its frame
synchronization wiring, and its top-level error handling. -/

/-- Light source categories, mirroring the avk lightsource_type values used in
assignment1.cpp lines 434-443. -/
inductive lightsource_type
  | ambient
  | directional
  | point
  | spot
  deriving DecidableEq

/-- Category counts of the currently active light sources, abstracting the
vector returned by helpers::get_active_lightsources() (assignment1.cpp line
431). The vector is summarized by how many active lights fall into each of the
four categories. -/
structure light_counts where
  ambient : Nat
  directional : Nat
  point : Nat
  spot : Nat
  deriving DecidableEq

/-- Number of active lights of one category. -/
def light_counts.count (c : light_counts) : lightsource_type → Nat
  | lightsource_type.ambient => c.ambient
  | lightsource_type.directional => c.directional
  | lightsource_type.point => c.point
  | lightsource_type.spot => c.spot

/-- Total number of currently active lights. -/
def light_counts.total (c : light_counts) : Nat :=
  c.ambient + c.directional + c.point + c.spot

/-- Modelled from the spec: helpers::get_lightsource_type_begin_index, declared
in utils/helper_functions.hpp, which is not part of src/. Per the spec, the
LightSourceBlock holds one begin/end range per category, the ranges are
disjoint, and their union covers exactly the currently active lights; together
with scenario A this fixes the packing: active lights are stored by category in
the order ambient, directional, point, spot, so the begin index of a category
is the number of active lights of all earlier categories. -/
def get_lightsource_type_begin_index (c : light_counts) : lightsource_type → Nat
  | lightsource_type.ambient => 0
  | lightsource_type.directional => c.ambient
  | lightsource_type.point => c.ambient + c.directional
  | lightsource_type.spot => c.ambient + c.directional + c.point

/-- Modelled from the spec: helpers::get_lightsource_type_end_index, declared
in utils/helper_functions.hpp, which is not part of src/. The end index of a
category is its begin index plus the number of active lights of that
category. -/
def get_lightsource_type_end_index (c : light_counts) (t : lightsource_type) : Nat :=
  get_lightsource_type_begin_index c t + c.count t

/-- Model of glm::uvec4 as used for the packed index ranges (assignment1.cpp
lines 53-55). The components are machine unsigned integers in the source; the
indices stored in them are bounded by the light capacity, far below 2 to the
32, so Nat is a faithful model. -/
structure uvec4 where
  x : Nat
  y : Nat
  z : Nat
  w : Nat
  deriving DecidableEq

/-- Struct lightsource_data of assignment1.cpp lines 50-58: two packed range
vectors plus the array of light records. The payload array
(std::array of lightsource_gpu_data, filled by convert_for_gpu_usage) is
abstracted by the type parameter L, since its element type lives in the
framework, outside src/. -/
structure lightsource_data (L : Type) where
  mRangesAmbientDirectional : uvec4
  mRangesPointSpot : uvec4
  mLightData : L

/-- Construction of the lightsource_data block exactly as in
assignment1::render, assignment1.cpp lines 432-446: the two uvec4 fields are
filled with begin/end indices in the order ambient, directional, point, spot,
and the payload with the converted light data. -/
def make_lightsource_data {L : Type} (c : light_counts) (lightData : L) : lightsource_data L :=
  { mRangesAmbientDirectional :=
      { x := get_lightsource_type_begin_index c lightsource_type.ambient
      , y := get_lightsource_type_end_index c lightsource_type.ambient
      , z := get_lightsource_type_begin_index c lightsource_type.directional
      , w := get_lightsource_type_end_index c lightsource_type.directional }
  , mRangesPointSpot :=
      { x := get_lightsource_type_begin_index c lightsource_type.point
      , y := get_lightsource_type_end_index c lightsource_type.point
      , z := get_lightsource_type_begin_index c lightsource_type.spot
      , w := get_lightsource_type_end_index c lightsource_type.spot }
  , mLightData := lightData }

/-- Category range of a produced block, read back from its two packed uvec4
fields following the component layout documented in assignment1.cpp lines
52-55. -/
def lightsource_data.range {L : Type} (b : lightsource_data L) : lightsource_type → Nat × Nat
  | lightsource_type.ambient => (b.mRangesAmbientDirectional.x, b.mRangesAmbientDirectional.y)
  | lightsource_type.directional => (b.mRangesAmbientDirectional.z, b.mRangesAmbientDirectional.w)
  | lightsource_type.point => (b.mRangesPointSpot.x, b.mRangesPointSpot.y)
  | lightsource_type.spot => (b.mRangesPointSpot.z, b.mRangesPointSpot.w)

/-- Well-formedness of a category-range assignment: begin at most end for each
category, pairwise disjoint half-open ranges, every range inside [0, cap), and
the union of the ranges covering exactly the index set [0, total) of the
currently active lights. -/
def ranges_well_formed (cap total : Nat) (r : lightsource_type → Nat × Nat) : Prop :=
  (∀ t, (r t).1 ≤ (r t).2) ∧
  (∀ t u, t ≠ u → (r t).2 ≤ (r u).1 ∨ (r u).2 ≤ (r t).1) ∧
  (∀ t, (r t).2 ≤ cap) ∧
  (∀ i, (∃ t, (r t).1 ≤ i ∧ i < (r t).2) ↔ i < total)

lemma make_lightsource_data_range_fst {L : Type} (c : light_counts) (lightData : L)
    (t : lightsource_type) :
    ((make_lightsource_data c lightData).range t).1 = get_lightsource_type_begin_index c t := by
  cases t <;> rfl

lemma make_lightsource_data_range_snd {L : Type} (c : light_counts) (lightData : L)
    (t : lightsource_type) :
    ((make_lightsource_data c lightData).range t).2 = get_lightsource_type_end_index c t := by
  cases t <;> rfl

/-- C3: for every produced light-source block, each category range has begin at
most end, ranges of distinct categories are disjoint, every range lies within
[0, cap) where cap is the compile-time maximum number of light sources
(MAX_NUMBER_OF_LIGHTSOURCES, from lightsource_limits.h, outside src/ and hence
a parameter here), and the union of the ranges covers exactly the currently
active lights, provided the active lights fit into the fixed-capacity array. -/
theorem lightsource_block_ranges_well_formed {L : Type} (c : light_counts) (lightData : L)
    (cap : Nat) (hcap : c.total ≤ cap) :
    ranges_well_formed cap c.total (make_lightsource_data c lightData).range := by
  have hc : c.ambient + c.directional + c.point + c.spot ≤ cap := hcap
  refine ⟨?_, ?_, ?_, ?_⟩
  · intro t
    cases t <;>
      (simp only [make_lightsource_data_range_fst, make_lightsource_data_range_snd,
        get_lightsource_type_begin_index, get_lightsource_type_end_index, light_counts.count]
       omega)
  · intro t u htu
    cases t <;> cases u <;>
      first
        | exact absurd rfl htu
        | (simp only [make_lightsource_data_range_fst, make_lightsource_data_range_snd,
            get_lightsource_type_begin_index, get_lightsource_type_end_index, light_counts.count]
           omega)
  · intro t
    cases t <;>
      (simp only [make_lightsource_data_range_snd,
        get_lightsource_type_begin_index, get_lightsource_type_end_index, light_counts.count]
       omega)
  · intro i
    constructor
    · rintro ⟨t, h1, h2⟩
      show i < c.ambient + c.directional + c.point + c.spot
      cases t <;>
        (simp only [make_lightsource_data_range_fst, make_lightsource_data_range_snd,
          get_lightsource_type_begin_index, get_lightsource_type_end_index,
          light_counts.count] at h1 h2
         omega)
    · intro hi
      have hi4 : i < c.ambient + c.directional + c.point + c.spot := hi
      rcases Nat.lt_or_ge i c.ambient with h1 | h1
      · refine ⟨lightsource_type.ambient, ?_, ?_⟩ <;>
          (simp only [make_lightsource_data_range_fst, make_lightsource_data_range_snd,
            get_lightsource_type_begin_index, get_lightsource_type_end_index, light_counts.count]
           omega)
      rcases Nat.lt_or_ge i (c.ambient + c.directional) with h2 | h2
      · refine ⟨lightsource_type.directional, ?_, ?_⟩ <;>
          (simp only [make_lightsource_data_range_fst, make_lightsource_data_range_snd,
            get_lightsource_type_begin_index, get_lightsource_type_end_index, light_counts.count]
           omega)
      rcases Nat.lt_or_ge i (c.ambient + c.directional + c.point) with h3 | h3
      · refine ⟨lightsource_type.point, ?_, ?_⟩ <;>
          (simp only [make_lightsource_data_range_fst, make_lightsource_data_range_snd,
            get_lightsource_type_begin_index, get_lightsource_type_end_index, light_counts.count]
           omega)
      · refine ⟨lightsource_type.spot, ?_, ?_⟩ <;>
          (simp only [make_lightsource_data_range_fst, make_lightsource_data_range_snd,
            get_lightsource_type_begin_index, get_lightsource_type_end_index, light_counts.count]
           omega)

/-- Witness for C3 at the concrete scenario-A light set (2 ambient, 1
directional, 0 point, 0 spot) with capacity 3. -/
theorem lightsource_block_ranges_well_formed_witness :
    (⟨2, 1, 0, 0⟩ : light_counts).total ≤ 3 ∧
    ranges_well_formed 3 (⟨2, 1, 0, 0⟩ : light_counts).total
      (make_lightsource_data (⟨2, 1, 0, 0⟩ : light_counts) ()).range :=
  ⟨by decide, lightsource_block_ranges_well_formed (⟨2, 1, 0, 0⟩ : light_counts) () 3 (by decide)⟩

/-- C4: with an active light set of 2 ambient, 1 directional, 0 point and 0
spot lights, the produced range block is ambient [0,2), directional [2,3),
point [3,3), spot [3,3), i.e. the packed vectors are (0,2,2,3) and
(3,3,3,3). -/
theorem scenario_A_light_ranges :
    make_lightsource_data (⟨2, 1, 0, 0⟩ : light_counts) () =
      { mRangesAmbientDirectional := ⟨0, 2, 2, 3⟩
      , mRangesPointSpot := ⟨3, 3, 3, 3⟩
      , mLightData := () } := rfl

/-- Enabled/disabled flags of the two camera invokees (assignment1.cpp members
mOrbitCam and mQuakeCam). -/
structure cam_state where
  orbitEnabled : Bool
  quakeEnabled : Bool
  deriving DecidableEq

/-- Camera state right after assignment1::initialize (assignment1.cpp lines
119-121): both cameras are added to the composition (invokees start enabled)
and then only the quake camera is explicitly disabled. -/
def cam_init : cam_state := { orbitEnabled := true, quakeEnabled := false }

/-- Per-invocation inputs of the GUI callback installed in
assignment1::init_gui: whether the quake-camera checkbox was clicked this
frame, whether escape is pressed, and the two mouse-occupancy edge events of
the imgui_manager. -/
structure gui_events where
  checkboxClicked : Bool
  escapePressed : Bool
  beginOccupyMouse : Bool
  endOccupyMouse : Bool
  deriving DecidableEq

/-- One run of the GUI callback of assignment1::init_gui (assignment1.cpp lines
264-286) as a transition on the camera flags. The local bool quakeCamEnabled is
initialized from mQuakeCam.is_enabled() and flipped in place by the checkbox
when clicked; enabling the quake camera disables the orbit camera; inside the
quakeCamEnabled branch, escape enables the orbit camera and disables the quake
camera; then begin_wanting_to_occupy_mouse disables an enabled orbit camera,
and end_wanting_to_occupy_mouse enables the orbit camera if the quake camera is
disabled. -/
def init_gui_step (s : cam_state) (e : gui_events) : cam_state :=
  let quakeCamEnabled := if e.checkboxClicked then !s.quakeEnabled else s.quakeEnabled
  let s1 := if e.checkboxClicked && quakeCamEnabled then
      { orbitEnabled := false, quakeEnabled := true } else s
  let s2 := if quakeCamEnabled && e.escapePressed then
      { orbitEnabled := true, quakeEnabled := false } else s1
  let s3 := if e.beginOccupyMouse && s2.orbitEnabled then
      { s2 with orbitEnabled := false } else s2
  if e.endOccupyMouse && !s3.quakeEnabled then { s3 with orbitEnabled := true } else s3

/-- Camera-flag states reachable from the post-initialize state through runs of
the GUI callback. -/
inductive cam_reachable : cam_state → Prop
  | init : cam_reachable cam_init
  | step (s : cam_state) (e : gui_events) : cam_reachable s → cam_reachable (init_gui_step s e)

/-- Boolean form of the mutual-exclusion invariant that actually holds: the two
cameras are never both enabled. -/
def at_most_one_enabled (s : cam_state) : Bool := !(s.orbitEnabled && s.quakeEnabled)

lemma init_gui_step_preserves_at_most_one :
    ∀ a b c d e f : Bool,
      at_most_one_enabled ⟨a, b⟩ = true →
      at_most_one_enabled (init_gui_step ⟨a, b⟩ ⟨c, d, e, f⟩) = true := by decide

lemma checkbox_on_swaps_to_quake :
    ∀ a : Bool, init_gui_step ⟨a, false⟩ ⟨true, false, false, false⟩ = ⟨false, true⟩ := by decide

lemma escape_swaps_to_orbit :
    ∀ a : Bool, init_gui_step ⟨a, true⟩ ⟨false, true, false, false⟩ = ⟨true, false⟩ := by decide

/-- C5 counterexample: the state in which BOTH cameras are disabled is
reachable in one GUI-callback step from the initial state, namely when the GUI
begins wanting to occupy the mouse while the orbit camera is enabled
(assignment1.cpp lines 281-283); hence it is not the case that exactly one
camera variant is enabled at every reachable state. -/
theorem cameras_can_both_be_disabled :
    cam_reachable (init_gui_step cam_init ⟨false, false, true, false⟩) ∧
    init_gui_step cam_init ⟨false, false, true, false⟩ =
      { orbitEnabled := false, quakeEnabled := false } :=
  ⟨cam_reachable.step cam_init ⟨false, false, true, false⟩ cam_reachable.init, by decide⟩

/-- C5 (amended): at every reachable state AT MOST one of the two camera
variants is enabled (the GUI mouse-occupancy handler can disable the orbit
camera while the quake camera is already disabled, leaving none enabled), and
toggling one camera on disables the other: checking the quake-camera checkbox
from a quake-disabled state yields quake enabled and orbit disabled, and
pressing escape in a quake-enabled state yields orbit enabled and quake
disabled. -/
theorem cam_mutual_exclusion (s : cam_state) (h : cam_reachable s) :
    at_most_one_enabled s = true ∧
    (s.quakeEnabled = false →
      init_gui_step s ⟨true, false, false, false⟩ = ⟨false, true⟩) ∧
    (s.quakeEnabled = true →
      init_gui_step s ⟨false, true, false, false⟩ = ⟨true, false⟩) := by
  refine ⟨?_, ?_, ?_⟩
  · induction h with
    | init => decide
    | step s e hs ih =>
        obtain ⟨a, b⟩ := s
        obtain ⟨c, d, e1, f⟩ := e
        exact init_gui_step_preserves_at_most_one a b c d e1 f ih
  · intro hq
    obtain ⟨a, b⟩ := s
    cases hq
    exact checkbox_on_swaps_to_quake a
  · intro hq
    obtain ⟨a, b⟩ := s
    cases hq
    exact escape_swaps_to_orbit a

/-- Witness for C5 (amended) at the initial camera state. -/
theorem cam_mutual_exclusion_witness :
    at_most_one_enabled cam_init = true ∧
    (cam_init.quakeEnabled = false →
      init_gui_step cam_init ⟨true, false, false, false⟩ = ⟨false, true⟩) ∧
    (cam_init.quakeEnabled = true →
      init_gui_step cam_init ⟨false, true, false, false⟩ = ⟨true, false⟩) :=
  cam_mutual_exclusion cam_init cam_reachable.init

/-- Loop-termination decision of assignment1::update (assignment1.cpp line
382): the composition is stopped when ((the quake camera is NOT enabled AND
escape is pressed) OR the main window should be closed); the conjunction binds
tighter than the disjunction, exactly as in the C++ operator precedence. -/
def update_stops (quakeEnabled escapePressed shouldClose : Bool) : Bool :=
  (!quakeEnabled && escapePressed) || shouldClose

/-- C9: escape terminates the render loop only when the quake camera is
disabled; with the quake camera enabled and the window not closing, escape does
not stop the loop, and the GUI callback instead re-enables the orbit camera and
disables the quake camera; the window-close flag stops the loop regardless of
the camera flags and of escape. -/
theorem escape_and_close_semantics :
    update_stops false true false = true ∧
    (∀ c : Bool, update_stops true true c = c) ∧
    (∀ q e : Bool, update_stops q e true = true) ∧
    (∀ a : Bool, init_gui_step ⟨a, true⟩ ⟨false, true, false, false⟩ = ⟨true, false⟩) := by
  refine ⟨rfl, ?_, ?_, ?_⟩
  · intro c; cases c <;> rfl
  · intro q e; cases q <;> cases e <;> rfl
  · exact escape_swaps_to_orbit

/-- Full camera state: the transform matrix of each camera (abstract type M,
standing for the avk camera transform) plus the enabled flags. -/
structure cam_transforms (M : Type) where
  orbitMatrix : M
  quakeMatrix : M
  orbitEnabled : Bool
  quakeEnabled : Bool

/-- Camera-sync part of assignment1::update (assignment1.cpp lines 373-379): if
the quake camera is enabled, the orbit camera receives its matrix; then, if the
orbit camera is enabled, the quake camera receives the orbit matrix. -/
def update_cam_sync {M : Type} (s : cam_transforms M) : cam_transforms M :=
  let s1 := if s.quakeEnabled then { s with orbitMatrix := s.quakeMatrix } else s
  if s1.orbitEnabled then { s1 with quakeMatrix := s1.orbitMatrix } else s1

/-- Modelled from the spec: the camera components supply transforms via a
polymorphic active-camera selection, so only an enabled camera processes input
and updates its own transform between frames; a disabled camera keeps its
matrix. -/
def apply_camera_input {M : Type} (s : cam_transforms M) (orbitInput quakeInput : M) :
    cam_transforms M :=
  { s with
    orbitMatrix := if s.orbitEnabled then orbitInput else s.orbitMatrix
    quakeMatrix := if s.quakeEnabled then quakeInput else s.quakeMatrix }

/-- Setting the enabled flags, over-approximating any GUI toggling that happens
between two frames. -/
def set_enabled_flags {M : Type} (s : cam_transforms M) (o q : Bool) : cam_transforms M :=
  { s with orbitEnabled := o, quakeEnabled := q }

/-- One frame up to the render callback: flag toggles from the previous GUI
pass, camera input processing, then the camera sync of assignment1::update. -/
def frame_step {M : Type} (s : cam_transforms M) (o q : Bool) (orbitInput quakeInput : M) :
    cam_transforms M :=
  update_cam_sync (apply_camera_input (set_enabled_flags s o q) orbitInput quakeInput)

/-- Camera states observable at the start of a render callback:
assignment1::initialize (assignment1.cpp lines 113-118) gives both cameras
identical translation, orientation and projection, and every later render
start is reached through a frame step. -/
inductive cam_frames_reachable {M : Type} : cam_transforms M → Prop
  | init (m : M) (o q : Bool) : cam_frames_reachable ⟨m, m, o, q⟩
  | step (s : cam_transforms M) (o q : Bool) (orbitInput quakeInput : M) :
      cam_frames_reachable s → cam_frames_reachable (frame_step s o q orbitInput quakeInput)

/-- Camera transform that assignment1::render reads into the uniform data
(assignment1.cpp lines 417-419): unconditionally the quake camera. -/
def uniform_camera_source {M : Type} (s : cam_transforms M) : M := s.quakeMatrix

/-- Transform of the currently enabled camera under the active-camera
selection (orbit if enabled, otherwise quake). -/
def enabled_camera_matrix {M : Type} (s : cam_transforms M) : M :=
  if s.orbitEnabled then s.orbitMatrix else s.quakeMatrix

/-- C10: at the start of every render step the two cameras hold identical
transform matrices (the update step copies the enabled camera matrix to the
disabled one), hence the uniform data, which unconditionally reads the quake
camera, equals the transform of whichever camera is currently enabled. -/
theorem render_reads_enabled_camera (M : Type) (s : cam_transforms M)
    (h : cam_frames_reachable s) :
    s.orbitMatrix = s.quakeMatrix ∧ uniform_camera_source s = enabled_camera_matrix s := by
  have heq : s.orbitMatrix = s.quakeMatrix := by
    induction h with
    | init m o q => rfl
    | step s o q orbitInput quakeInput hs ih =>
        obtain ⟨om, qm, oe, qe⟩ := s
        cases o <;> cases q <;>
          simp [frame_step, update_cam_sync, apply_camera_input, set_enabled_flags, ih]
  refine ⟨heq, ?_⟩
  unfold uniform_camera_source enabled_camera_matrix
  cases ho : s.orbitEnabled <;> simp [heq]

/-- Witness for C10 at the initial camera state with natural-number
transforms. -/
theorem render_reads_enabled_camera_witness :
    (⟨0, 0, true, false⟩ : cam_transforms Nat).orbitMatrix =
      (⟨0, 0, true, false⟩ : cam_transforms Nat).quakeMatrix ∧
    uniform_camera_source (⟨0, 0, true, false⟩ : cam_transforms Nat) =
      enabled_camera_matrix (⟨0, 0, true, false⟩ : cam_transforms Nat) :=
  render_reads_enabled_camera Nat ⟨0, 0, true, false⟩ (cam_frames_reachable.init 0 true false)

/-- Vulkan pipeline stages that occur in assignment1.cpp, with their logical
pipeline order. Stage copy is the transfer stage of the light-buffer upload
(line 453); the early fragment tests, fragment shader, late fragment tests and
color attachment output are the graphics stages named by the renderpass
dependencies (lines 160-170) and by the submission wait (line 512). -/
inductive stage
  | copy
  | early_fragment_tests
  | fragment_shader
  | late_fragment_tests
  | color_attachment_output
  deriving DecidableEq

/-- Logical pipeline order of the graphics stages (a smaller number executes
earlier within a draw). -/
def stage.order : stage → Nat
  | stage.copy => 0
  | stage.early_fragment_tests => 1
  | stage.fragment_shader => 2
  | stage.late_fragment_tests => 3
  | stage.color_attachment_output => 4

/-- Pipeline stages that touch the target swapchain image, per the renderpass
attachment dependencies of assignment1.cpp lines 160-170: depth tests read and
write the depth attachment and color attachment output writes the color
attachment. -/
def image_touching_stages : List stage :=
  [stage.early_fragment_tests, stage.late_fragment_tests, stage.color_attachment_output]

/-- Pipeline stage in which the fragment shader reads the light-source buffer
(descriptor binding 1,1 of the blinnphong fragment shader, assignment1.cpp line
489). -/
def lights_reading_stage : stage := stage.fragment_shader

/-- Semaphore wait entry of a queue submission: the semaphore (identified by a
token id) and the destination stage at which the submission waits on it. -/
structure sem_wait where
  sem : Nat
  dstStage : stage
  deriving DecidableEq

/-- A queue submission viewed through its synchronization interface: the
semaphores it waits on (each at a destination stage) and the semaphore it
signals upon completion, if any. -/
structure frame_submission where
  waits : List sem_wait
  signals : Option Nat
  deriving DecidableEq

/-- Synchronization wiring that one invocation of assignment1::render produces
for a frame: the consumed image-available semaphore, the light-buffer transfer
submission, the draw-command submission, and the semaphores registered as
present dependencies of the current frame. -/
structure frame_sync where
  imageAvailableSem : Nat
  lightsTransfer : frame_submission
  drawSubmission : frame_submission
  presentWaits : List Nat
  deriving DecidableEq

/-- Shallow embedding of assignment1::render (assignment1.cpp lines 401-519),
restricted to its semaphore wiring, parameterized over the token ids of the two
semaphores of the frame:
line 412 consumes the image-available semaphore;
lines 447-454 submit the light-buffer fill, signaling lightsSem at stage copy;
line 462 registers lightsSem as a present dependency of the current frame;
lines 507-514 submit the recorded draw commands waiting for the
image-available semaphore at stage early_fragment_tests, with no further
semaphore dependencies and no signal semaphore of its own. -/
def assignment1.render (imageAvailableSem lightsSem : Nat) : frame_sync :=
  { imageAvailableSem := imageAvailableSem
  , lightsTransfer := { waits := [], signals := some lightsSem }
  , drawSubmission :=
      { waits := [{ sem := imageAvailableSem, dstStage := stage.early_fragment_tests }]
      , signals := Option.none }
  , presentWaits := [lightsSem] }

/-- C1: evaluation of the code at a concrete frame (image-available semaphore
token 0, light-transfer semaphore token 1): the draw-command submission waits
only on the image-available semaphore at early_fragment_tests — its wait list
contains no entry for the light-transfer semaphore at any stage, in particular
not at the fragment stage that reads the light buffer — while the
light-transfer semaphore is instead registered as a present dependency. This
contradicts the claim that every frame waits on the light-buffer transfer
completion at the stage reading the lights. -/
theorem draw_submission_omits_lights_wait :
    (assignment1.render 0 1).drawSubmission.waits =
      [{ sem := 0, dstStage := stage.early_fragment_tests }] ∧
    ((assignment1.render 0 1).drawSubmission.waits.all fun w => w.sem != 1) = true ∧
    (assignment1.render 0 1).presentWaits = [1] := by
  refine ⟨rfl, ?_, rfl⟩
  decide

/-- C2 counterexample at a concrete frame (image-available semaphore token 0,
light-transfer semaphore token 1): the draw-command submission signals no
semaphore at all, so no semaphore signaled by it is registered as a present
dependency; the only present dependency this code registers is the
light-transfer semaphore. -/
theorem present_not_dependent_on_draw_submission :
    ¬ ∃ s, (assignment1.render 0 1).drawSubmission.signals = some s ∧
        s ∈ (assignment1.render 0 1).presentWaits := by
  rintro ⟨s, hs, hmem⟩
  simp [assignment1.render] at hs

/-- C2 (amended): for every frame, the semaphore that assignment1::render
registers as a dependency of the present operation is the light-buffer
transfer completion, and the draw-command submission signals no completion
semaphore, so its completion is not itself registered as a present dependency
by this code (the comment at assignment1.cpp lines 396-399 delegates the final
present dependency to the GUI manager outside this repository). -/
theorem present_depends_on_lights_transfer (imageAvailableSem lightsSem : Nat) :
    (assignment1.render imageAvailableSem lightsSem).presentWaits = [lightsSem] ∧
    (assignment1.render imageAvailableSem lightsSem).lightsTransfer.signals = some lightsSem ∧
    (assignment1.render imageAvailableSem lightsSem).drawSubmission.signals = Option.none :=
  ⟨rfl, rfl, rfl⟩

/-- C6: for every frame, the draw-command submission waits on the
image-available semaphore at stage early_fragment_tests, and
early_fragment_tests is the earliest of the stages that touch the target image
(so every image-touching stage of the submission executes only after the
image-available semaphore is satisfied). -/
theorem draw_waits_image_available_at_earliest_stage (imageAvailableSem lightsSem : Nat) :
    (assignment1.render imageAvailableSem lightsSem).drawSubmission.waits =
      [{ sem := imageAvailableSem, dstStage := stage.early_fragment_tests }] ∧
    stage.early_fragment_tests ∈ image_touching_stages ∧
    (image_touching_stages.all fun s =>
      decide (stage.order stage.early_fragment_tests ≤ stage.order s)) = true :=
  ⟨rfl, by decide, by decide⟩

/-- Struct matrices_and_user_input of assignment1.cpp lines 37-47, with the
matrix and vector types abstract (M for glm::mat4, V for glm::vec4). -/
structure matrices_and_user_input (M V : Type) where
  mViewMatrix : M
  mProjMatrix : M
  mCamPos : M
  mUserInput : V

/-- Per-frame inputs of the buffer-update part of assignment1::render: the
camera matrices read from the quake camera, the translation matrix built from
the camera position, the user-input vector built from the normal-mapping
strength, the category counts of the active lights, and the converted light
records. -/
structure frame_inputs (M V L : Type) where
  viewMatrix : M
  projMatrix : M
  camTranslationMatrix : M
  userInput : V
  lightCounts : light_counts
  convertedLights : L

/-- Contents of the two GPU buffers that assignment1::render overwrites each
frame. -/
structure gpu_buffers (M V L : Type) where
  mUniformsBuffer : matrices_and_user_input M V
  mLightsBuffer : lightsource_data L

/-- Buffer-update step of assignment1::render (assignment1.cpp lines 415-454):
the uniform buffer is overwritten in place with the matrices and user input
(lines 416-424), and the lights buffer is overwritten with the freshly built
lightsource_data block (lines 430-451). Both writes replace the whole buffer
at offset 0; the previous contents are not read. -/
def update_buffers {M V L : Type} (inp : frame_inputs M V L) (bufs : gpu_buffers M V L) :
    gpu_buffers M V L :=
  { mUniformsBuffer :=
      { mViewMatrix := inp.viewMatrix
      , mProjMatrix := inp.projMatrix
      , mCamPos := inp.camTranslationMatrix
      , mUserInput := inp.userInput }
  , mLightsBuffer := make_lightsource_data inp.lightCounts inp.convertedLights }

/-- C7: running the per-frame buffer update twice in a row with identical
camera and light input produces exactly the same uniform-buffer and
light-buffer contents as running it once; the update overwrites both buffers
in full from its inputs alone, so it is idempotent. -/
theorem update_buffers_idempotent (M V L : Type) (inp : frame_inputs M V L)
    (bufs : gpu_buffers M V L) :
    update_buffers inp (update_buffers inp bufs) = update_buffers inp bufs := rfl

/-- Error categories caught at the outermost scope of main (assignment1.cpp
lines 648-649): avk::logic_error and avk::runtime_error. -/
inductive avk_error
  | logic_error
  | runtime_error
  deriving DecidableEq

/-- Process exit code for success, as in the C++ EXIT_SUCCESS. -/
def EXIT_SUCCESS : Nat := 0

/-- Process exit code for failure, as in the C++ EXIT_FAILURE (1 on this
platform). -/
def EXIT_FAILURE : Nat := 1

/-- Shallow embedding of main (assignment1.cpp lines 573-652): result is
initialized to EXIT_FAILURE; if the try block (window setup, composition, and
the render loop) runs to completion, result becomes EXIT_SUCCESS; a thrown
avk::logic_error or avk::runtime_error is caught at this outermost scope by an
empty handler, leaving the failure result; the caught value is returned
immediately, with no retry and no rollback. -/
def main_result : Except avk_error Unit → Nat
  | Except.ok _ => EXIT_SUCCESS
  | Except.error avk_error.logic_error => EXIT_FAILURE
  | Except.error avk_error.runtime_error => EXIT_FAILURE

/-- C8: the process exits with exactly one of the two exit codes: EXIT_SUCCESS
exactly when the render loop runs to completion, and EXIT_FAILURE when a
top-level error of the logic category or of the runtime category is thrown;
the two codes are distinct, and both error categories lead to the same
immediate failure status. -/
theorem main_exit_codes :
    (∀ r, main_result r = EXIT_SUCCESS ∨ main_result r = EXIT_FAILURE) ∧
    (∀ r, main_result r = EXIT_SUCCESS ↔ r = Except.ok ()) ∧
    (∀ e, main_result (Except.error e) = EXIT_FAILURE) ∧
    EXIT_SUCCESS ≠ EXIT_FAILURE := by
  refine ⟨?_, ?_, ?_, by decide⟩
  · intro r
    rcases r with e | u
    · cases e <;> exact Or.inr rfl
    · exact Or.inl rfl
  · intro r
    rcases r with e | u
    · cases e <;> simp [main_result, EXIT_SUCCESS, EXIT_FAILURE]
    · cases u
      simp [main_result]
  · intro e
    cases e <;> rfl
